import Mathlib

/-!
Verification development for the monthly sales analysis script
(src/data_analysis.py).

The script is a single pandas pipeline:
  load csv → validate required columns → fillna(0) on the whole frame →
  to_numeric(errors=coerce) on Revenue and Expenses → add Profit and
  Profit_Margin_Percentage columns → aggregates (sum/mean) → idxmax
  best-month lookup → above-average filter → charts → csv export.

Shallow embedding conventions:
* A raw CSV cell is a `Cell`: a numeric value (a value pandas parses as
  a number), a non-numeric string, or a missing value (NaN in the frame).
* Float values produced by pandas arithmetic are `PVal`: a rational
  number, NaN, or a signed infinity.  Pandas/numpy float semantics are
  kept (x/0 is a signed infinity for x not 0, 0/0 is NaN, NaN
  propagates, comparisons against NaN are false); rationals stand in
  for binary floats, which is exact on all the small integer data the
  claims are about.
* Library calls (`sum`, `mean`, `idxmax`, boolean-mask filtering) are
  modelled by their documented pandas semantics: `sum` and `mean` skip
  NaN, `mean` of no defined values is NaN, `idxmax` returns the first
  index attaining the maximum over the non-NaN entries and raises when
  there is none (modelled as `none`).
-/

/-- One cell of the raw CSV table: a value that parses as a number, a
string that does not, or a missing value. -/
inductive Cell where
  | num (q : ℚ)
  | str (s : String)
  | missing
deriving DecidableEq, Repr

/-- A pandas float value: a (rational) number, NaN, or a signed
infinity (`inf true` is plus infinity, `inf false` is minus infinity). -/
inductive PVal where
  | num (q : ℚ)
  | nan
  | inf (pos : Bool)
deriving DecidableEq, Repr

/-- Is this value NaN? -/
def PVal.isNan : PVal → Bool
  | .nan => true
  | _ => false

/-- Pandas/IEEE addition. -/
def pvAdd : PVal → PVal → PVal
  | .num a, .num b => .num (a + b)
  | .nan, _ => .nan
  | _, .nan => .nan
  | .inf p, .num _ => .inf p
  | .num _, .inf q => .inf q
  | .inf p, .inf q => if p == q then .inf p else .nan

/-- Pandas/IEEE subtraction (`df['Revenue'] - df['Expenses']`, line 74). -/
def pvSub : PVal → PVal → PVal
  | .num a, .num b => .num (a - b)
  | .nan, _ => .nan
  | _, .nan => .nan
  | .inf p, .num _ => .inf p
  | .num _, .inf q => .inf (!q)
  | .inf p, .inf q => if p == q then .nan else .inf p

/-- Pandas/IEEE multiplication. -/
def pvMul : PVal → PVal → PVal
  | .num a, .num b => .num (a * b)
  | .nan, _ => .nan
  | _, .nan => .nan
  | .inf p, .num b => if b = 0 then .nan else if 0 < b then .inf p else .inf (!p)
  | .num a, .inf q => if a = 0 then .nan else if 0 < a then .inf q else .inf (!q)
  | .inf p, .inf q => .inf (p == q)

/-- Pandas division (`df['Profit'] / df['Revenue']`, line 77): a
nonzero number divided by zero is a signed infinity, zero divided by
zero is NaN. -/
def pvDiv : PVal → PVal → PVal
  | .num a, .num b =>
      if b = 0 then (if a = 0 then .nan else if 0 < a then .inf true else .inf false)
      else .num (a / b)
  | .nan, _ => .nan
  | _, .nan => .nan
  | .inf p, .num b => if 0 ≤ b then .inf p else .inf (!p)
  | .num _, .inf _ => .num 0
  | .inf _, .inf _ => .nan

/-- Pandas strict greater-than on floats: any comparison involving NaN
is false. -/
def pvGtB : PVal → PVal → Bool
  | .nan, _ => false
  | _, .nan => false
  | .num a, .num b => decide (b < a)
  | .num _, .inf p => !p
  | .inf p, .num _ => p
  | .inf p, .inf q => p && !q

/-- One row of the raw input table (the three columns the script
uses). -/
structure RawRow where
  month : Cell
  revenue : Cell
  expenses : Cell
deriving DecidableEq, Repr

/-- The raw table: its column labels and its rows. -/
structure RawTable where
  columns : List String
  rows : List RawRow
deriving DecidableEq, Repr

/-- A row after cleaning: Revenue and Expenses have been coerced to
float values; Month is still a raw cell. -/
structure CleanRow where
  month : Cell
  revenue : PVal
  expenses : PVal
deriving DecidableEq, Repr

/-- A row after the metric columns are added (lines 74 and 77). -/
structure MetricRow where
  month : Cell
  revenue : PVal
  expenses : PVal
  profit : PVal
  profitMarginPercentage : PVal
deriving DecidableEq, Repr

/-- `df.fillna(0)` on one cell (line 65): a missing value becomes the
number 0, every other cell is unchanged.  The script only calls fillna
when some value is missing, but on a frame with no missing values
fillna is the identity, so the unconditional form is extensionally the
same. -/
def fillCell : Cell → Cell
  | .missing => .num 0
  | c => c

/-- `pd.to_numeric(col, errors='coerce')` on one cell (lines 68-69): a
numeric value is kept, a value that cannot be parsed as a number
becomes NaN, a missing value stays missing (NaN). -/
def toNumeric : Cell → PVal
  | .num q => .num q
  | .str _ => .nan
  | .missing => .nan

/-- The cleaning stage on one row (lines 63-69): fillna(0) over the
whole frame — every column, Month included — and then numeric coercion
of Revenue and Expenses only. -/
def cleanRow (r : RawRow) : CleanRow :=
  { month := fillCell r.month
  , revenue := toNumeric (fillCell r.revenue)
  , expenses := toNumeric (fillCell r.expenses) }

/-- The metric columns of lines 74 and 77:
`Profit = Revenue - Expenses` and
`Profit_Margin_Percentage = (Profit / Revenue) * 100`. -/
def addMetrics (r : CleanRow) : MetricRow :=
  { month := r.month
  , revenue := r.revenue
  , expenses := r.expenses
  , profit := pvSub r.revenue r.expenses
  , profitMarginPercentage := pvMul (pvDiv (pvSub r.revenue r.expenses) r.revenue) (.num 100) }

/-- Cleaning followed by the metric columns, row by row.  The script
performs no reordering between reading the table and exporting it. -/
def analyzeRows (rows : List RawRow) : List MetricRow :=
  rows.map (fun r => addMetrics (cleanRow r))

/-- `Series.sum()` (lines 80, 82): NaN entries are skipped, the sum of
no defined entries is 0. -/
def pvSumList : List PVal → PVal
  | [] => .num 0
  | v :: rest => if v.isNan then pvSumList rest else pvAdd v (pvSumList rest)

/-- The number of non-NaN entries of a column. -/
def definedCount (l : List PVal) : Nat :=
  (l.filter (fun v => !v.isNan)).length

/-- `Series.mean()` (lines 81, 83): the sum of the defined entries
divided by their count; NaN when no entry is defined (in particular on
an empty column). -/
def pvMean (l : List PVal) : PVal :=
  if definedCount l = 0 then .nan
  else pvDiv (pvSumList l) (.num (definedCount l : ℚ))

/-- `Series.idxmax()` together with the value at that index: the first
position attaining the maximum over the non-NaN entries; `none` when
the series is empty or all NaN (pandas raises there). -/
def idxmaxPair : List PVal → Option (Nat × PVal)
  | [] => none
  | v :: rest =>
      match idxmaxPair rest with
      | none => if v.isNan then none else some (0, v)
      | some (j, w) =>
          if v.isNan then some (j + 1, w)
          else if pvGtB w v then some (j + 1, w) else some (0, v)

/-- `Series.idxmax()` (line 97). -/
def idxmax (l : List PVal) : Option Nat :=
  (idxmaxPair l).map Prod.fst

/-- `df.loc[df['Revenue'].idxmax()]['Month']` (line 97): the Month cell
of the first row attaining the maximum Revenue; `none` when idxmax
raises. -/
def highestRevenueMonth (m : List MetricRow) : Option Cell :=
  (idxmax (m.map (fun r => r.revenue))).bind
    (fun i => (m.get? i).map (fun r => r.month))

/-- `df[df['Revenue'] > average_revenue]['Month'].tolist()` (line 102):
the Month cells of the rows whose Revenue strictly exceeds the mean
Revenue, in row order.  Comparisons against NaN are false. -/
def aboveAverageRevenueMonths (m : List MetricRow) : List Cell :=
  ((m.filter (fun r => pvGtB r.revenue (pvMean (m.map (fun s => s.revenue))))).map
    (fun r => r.month))

/-- The required-column set of line 54. -/
def requiredColumns : List String := ["Month", "Revenue", "Expenses"]

/-- `missing_columns` (line 55): the required columns absent from the
frame, in the order of the required list. -/
def missingColumns (t : RawTable) : List String :=
  requiredColumns.filter (fun c => !(decide (c ∈ t.columns)))

/-- The validation step (lines 53-59): the table passes through
unchanged when every required column is present; otherwise the script
prints the missing columns and exits. -/
def validate (t : RawTable) : Except (List String) RawTable :=
  if missingColumns t = [] then .ok t else .error (missingColumns t)

/-- The aggregates printed in the report section (lines 80-92). -/
structure Aggregates where
  totalRevenue : PVal
  averageRevenue : PVal
  totalProfit : PVal
  averageProfit : PVal
deriving DecidableEq, Repr

/-- The exported CSV (lines 152-156): the frame's columns — the
original ones plus the two added metric columns — plus Analysis_Time,
a single timestamp string shared by every row. -/
structure ExportTable where
  columns : List String
  rows : List MetricRow
  analysisTime : String
deriving DecidableEq, Repr

/-- How a run of the script ends.
* `schemaError`: validation failed (line 59 exit); nothing after it
  runs and no output file is written.
* `idxmaxError`: the `idxmax` lookup of line 97 raised; the aggregate
  section (lines 86-94) has already been printed, and the above-average
  query, the charts and the export never run.
* `success`: the full run, with the aggregates, the best month, the
  above-average months and the exported table. -/
inductive RunOutcome where
  | schemaError (missing : List String)
  | idxmaxError (aggregates : Aggregates)
  | success (aggregates : Aggregates) (bestMonth : Cell)
      (aboveAverage : List Cell) (exported : ExportTable)
deriving DecidableEq, Repr

/-- The whole script on one table, with the run's timestamp string as a
parameter (line 22). -/
def runScript (analysisTime : String) (t : RawTable) : RunOutcome :=
  match validate t with
  | .error missing => .schemaError missing
  | .ok tv =>
      let m := analyzeRows tv.rows
      let agg : Aggregates :=
        { totalRevenue := pvSumList (m.map (fun r => r.revenue))
        , averageRevenue := pvMean (m.map (fun r => r.revenue))
        , totalProfit := pvSumList (m.map (fun r => r.profit))
        , averageProfit := pvMean (m.map (fun r => r.profit)) }
      match highestRevenueMonth m with
      | none => .idxmaxError agg
      | some best =>
          .success agg best (aboveAverageRevenueMonths m)
            { columns := tv.columns ++ ["Profit", "Profit_Margin_Percentage", "Analysis_Time"]
            , rows := m
            , analysisTime := analysisTime }

/-- The numeric revenue of a metric row whose Revenue is a number
(0 for NaN or infinite revenues); used to state the all-numeric
hypotheses of the aggregate theorems on concrete tables. -/
def revenueValue (r : MetricRow) : ℚ :=
  match r.revenue with
  | PVal.num q => q
  | _ => 0

/-- A concrete three-row analyzed table with revenues 1, 5, 5 — the
maximum revenue is attained twice, at rows 1 and 2. -/
def tiedRevenueRows : List MetricRow :=
  [⟨Cell.str "January", PVal.num 1, PVal.num 0, PVal.num 1, PVal.num 100⟩,
   ⟨Cell.str "February", PVal.num 5, PVal.num 0, PVal.num 5, PVal.num 100⟩,
   ⟨Cell.str "March", PVal.num 5, PVal.num 0, PVal.num 5, PVal.num 100⟩]

/-- A concrete two-row analyzed table with numeric revenues 1 and 3. -/
def twoNumericRows : List MetricRow :=
  [⟨Cell.str "January", PVal.num 1, PVal.num 0, PVal.num 1, PVal.num 100⟩,
   ⟨Cell.str "February", PVal.num 3, PVal.num 0, PVal.num 3, PVal.num 100⟩]

/-! ## C2: chronological ordering -/

/-- C2 counterexample: the script never sorts the table.  Feeding it the
twelve sample rows in reversed order, the analyzed table's month
sequence is December..January, not January..December, refuting the
claim that the analyzed table is always in calendar-month order. -/
theorem c2_order_counterexample :
    (analyzeRows
      [⟨Cell.str "December", Cell.num 2800, Cell.num 1200⟩,
       ⟨Cell.str "November", Cell.num 2600, Cell.num 1050⟩,
       ⟨Cell.str "October", Cell.num 2700, Cell.num 1100⟩,
       ⟨Cell.str "September", Cell.num 2500, Cell.num 1000⟩,
       ⟨Cell.str "August", Cell.num 2200, Cell.num 950⟩,
       ⟨Cell.str "July", Cell.num 2100, Cell.num 850⟩,
       ⟨Cell.str "June", Cell.num 1900, Cell.num 750⟩,
       ⟨Cell.str "May", Cell.num 2300, Cell.num 900⟩,
       ⟨Cell.str "April", Cell.num 2000, Cell.num 700⟩,
       ⟨Cell.str "March", Cell.num 2400, Cell.num 800⟩,
       ⟨Cell.str "February", Cell.num 1800, Cell.num 600⟩,
       ⟨Cell.str "January", Cell.num 1500, Cell.num 500⟩]).map (fun r => r.month)
    ≠ [Cell.str "January", Cell.str "February", Cell.str "March", Cell.str "April",
       Cell.str "May", Cell.str "June", Cell.str "July", Cell.str "August",
       Cell.str "September", Cell.str "October", Cell.str "November", Cell.str "December"] := by
  decide

/-- C2 amended: the analyzed table preserves the input row order — its
month sequence is exactly the input month sequence (with missing month
cells filled by 0); no chronological sorting is performed anywhere in
the script. -/
theorem c2_months_preserve_input_order (rows : List RawRow) :
    (analyzeRows rows).map (fun r => r.month) = rows.map (fun r => fillCell r.month) := by
  simp only [analyzeRows, List.map_map]
  rfl

/-! ## C3: profit margin at zero revenue -/

/-- C3 counterexample: on a cleaned row with revenue 0 and expenses
100, the script computes profit -100 and a profit margin of minus
infinity (pandas division of a negative number by zero), not the NaN
sentinel the claim requires. -/
theorem c3_zero_revenue_margin_counterexample :
    (addMetrics ⟨Cell.str "January", PVal.num 0, PVal.num 100⟩).profit = PVal.num (-100) ∧
    (addMetrics ⟨Cell.str "January", PVal.num 0, PVal.num 100⟩).profitMarginPercentage
      = PVal.inf false ∧
    (addMetrics ⟨Cell.str "January", PVal.num 0, PVal.num 100⟩).profitMarginPercentage
      ≠ PVal.nan := by
  refine ⟨?_, ?_, ?_⟩ <;> norm_num [addMetrics, pvSub, pvDiv, pvMul]
  decide

/-- C3 amended: for a cleaned row with numeric revenue `a` and numeric
expenses `b`, profit is `a - b`; when `a ≠ 0` the margin is
`(a - b) / a * 100`; when `a = 0` the margin is NaN only if profit is
also 0, and otherwise a signed infinity (minus infinity when `b > 0`,
as in the revenue 0, expenses 100 scenario). -/
theorem c3_margin_formula (r : CleanRow) (a b : ℚ)
    (hr : r.revenue = PVal.num a) (he : r.expenses = PVal.num b) :
    (addMetrics r).profit = PVal.num (a - b) ∧
    (a ≠ 0 → (addMetrics r).profitMarginPercentage = PVal.num ((a - b) / a * 100)) ∧
    (a = 0 → (addMetrics r).profitMarginPercentage =
        (if b = 0 then PVal.nan else if 0 < b then PVal.inf false else PVal.inf true)) := by
  obtain ⟨mo, rv, ex⟩ := r
  simp only at hr he
  subst hr; subst he
  refine ⟨rfl, fun ha => ?_, fun ha => ?_⟩
  · simp [addMetrics, pvSub, pvDiv, pvMul, ha]
  · subst ha
    rcases eq_or_ne b 0 with hb | hb
    · subst hb
      simp [addMetrics, pvSub, pvDiv, pvMul]
    · rcases hb.lt_or_lt with hb' | hb'
      · have h1 : (0 : ℚ) < 0 - b := by linarith
        simp only [addMetrics, pvSub, pvDiv, pvMul, h1, if_pos, if_neg hb,
          if_neg (by linarith : ¬ (0 - b : ℚ) = 0), if_neg (not_lt.mpr hb'.le), hb']
        norm_num
      · have h1 : ¬ (0 : ℚ) < 0 - b := by linarith
        have h2 : (0 : ℚ) - b ≠ 0 := by intro h; apply hb; linarith
        simp only [addMetrics, pvSub, pvDiv, pvMul, h1, if_neg hb, if_neg h2, hb',
          if_pos]
        norm_num

/-- C3 witness: the amended statement at the scenario row — revenue 0,
expenses 100 — where the margin is minus infinity. -/
theorem c3_margin_formula_witness :
    (⟨Cell.str "January", PVal.num 0, PVal.num 100⟩ : CleanRow).revenue = PVal.num 0 ∧
    (⟨Cell.str "January", PVal.num 0, PVal.num 100⟩ : CleanRow).expenses = PVal.num 100 ∧
    ((addMetrics ⟨Cell.str "January", PVal.num 0, PVal.num 100⟩).profit = PVal.num (0 - 100) ∧
     ((0 : ℚ) ≠ 0 →
        (addMetrics ⟨Cell.str "January", PVal.num 0, PVal.num 100⟩).profitMarginPercentage
          = PVal.num ((0 - 100) / 0 * 100)) ∧
     ((0 : ℚ) = 0 →
        (addMetrics ⟨Cell.str "January", PVal.num 0, PVal.num 100⟩).profitMarginPercentage =
          (if (100 : ℚ) = 0 then PVal.nan
           else if (0 : ℚ) < 100 then PVal.inf false else PVal.inf true))) :=
  ⟨rfl, rfl, c3_margin_formula ⟨Cell.str "January", PVal.num 0, PVal.num 100⟩ 0 100 rfl rfl⟩

/-! ## C4: cleaning of missing and non-numeric values -/

/-- C4 counterexample: a Revenue cell holding a non-numeric string is
NOT replaced by 0.  The fill of line 65 runs before the numeric
coercion of line 68, so the coercion turns the string into NaN and the
NaN survives into the Metrics Engine. -/
theorem c4_unparseable_counterexample :
    (cleanRow ⟨Cell.str "January", Cell.str "abc", Cell.num 5⟩).revenue = PVal.nan ∧
    (cleanRow ⟨Cell.str "January", Cell.str "abc", Cell.num 5⟩).revenue ≠ PVal.num 0 := by
  refine ⟨rfl, by decide⟩

/-- C4 amended: after cleaning, a missing Revenue or Expenses value has
become the number 0 and a numeric value is kept, but a value that
cannot be parsed as numeric has become NaN — it is still missing when
it reaches the Metrics Engine, because the fill precedes the
coercion. -/
theorem c4_cleaning_behavior (r : RawRow) :
    (r.revenue = Cell.missing → (cleanRow r).revenue = PVal.num 0) ∧
    (∀ q, r.revenue = Cell.num q → (cleanRow r).revenue = PVal.num q) ∧
    (∀ s, r.revenue = Cell.str s → (cleanRow r).revenue = PVal.nan) ∧
    (r.expenses = Cell.missing → (cleanRow r).expenses = PVal.num 0) ∧
    (∀ q, r.expenses = Cell.num q → (cleanRow r).expenses = PVal.num q) ∧
    (∀ s, r.expenses = Cell.str s → (cleanRow r).expenses = PVal.nan) := by
  refine ⟨fun h => ?_, fun q h => ?_, fun s h => ?_, fun h => ?_, fun q h => ?_, fun s h => ?_⟩ <;>
    simp [cleanRow, fillCell, toNumeric, h]

/-- C4 witness: a row whose Revenue is missing and whose Expenses is
the unparseable string "abc": the missing value becomes 0, the
unparseable one becomes NaN. -/
theorem c4_cleaning_behavior_witness :
    (cleanRow ⟨Cell.str "January", Cell.missing, Cell.str "abc"⟩).revenue = PVal.num 0 ∧
    (cleanRow ⟨Cell.str "January", Cell.missing, Cell.str "abc"⟩).expenses = PVal.nan :=
  ⟨(c4_cleaning_behavior ⟨Cell.str "January", Cell.missing, Cell.str "abc"⟩).1 rfl,
   (c4_cleaning_behavior ⟨Cell.str "January", Cell.missing, Cell.str "abc"⟩).2.2.2.2.2 "abc" rfl⟩

/-! ## C5: profit column -/

/-- C5: every row of the analyzed table has
`Profit = Revenue - Expenses` (pandas subtraction of the cleaned
values), and when both cleaned values are numbers the profit is their
exact rational difference. -/
theorem c5_profit_eq_revenue_sub_expenses (rows : List RawRow) (r : MetricRow)
    (hr : r ∈ analyzeRows rows) :
    r.profit = pvSub r.revenue r.expenses ∧
    ∀ a b, r.revenue = PVal.num a → r.expenses = PVal.num b → r.profit = PVal.num (a - b) := by
  rcases List.mem_map.mp hr with ⟨x, hx, rfl⟩
  refine ⟨rfl, fun a b ha hb => ?_⟩
  simp only [addMetrics] at ha hb ⊢
  rw [ha, hb]
  rfl

/-- C5 witness: the single-row table January, revenue 5, expenses 2:
profit is 3. -/
theorem c5_profit_witness :
    (⟨Cell.str "January", PVal.num 5, PVal.num 2, PVal.num 3, PVal.num 60⟩ : MetricRow) ∈
      analyzeRows [⟨Cell.str "January", Cell.num 5, Cell.num 2⟩] ∧
    ((⟨Cell.str "January", PVal.num 5, PVal.num 2, PVal.num 3, PVal.num 60⟩ : MetricRow).profit
        = pvSub (PVal.num 5) (PVal.num 2) ∧
     ∀ a b,
       (⟨Cell.str "January", PVal.num 5, PVal.num 2, PVal.num 3, PVal.num 60⟩ : MetricRow).revenue
           = PVal.num a →
       (⟨Cell.str "January", PVal.num 5, PVal.num 2, PVal.num 3, PVal.num 60⟩ : MetricRow).expenses
           = PVal.num b →
       (⟨Cell.str "January", PVal.num 5, PVal.num 2, PVal.num 3, PVal.num 60⟩ : MetricRow).profit
           = PVal.num (a - b)) :=
  ⟨by norm_num [analyzeRows, addMetrics, cleanRow, fillCell, toNumeric, pvSub, pvDiv, pvMul],
   c5_profit_eq_revenue_sub_expenses [⟨Cell.str "January", Cell.num 5, Cell.num 2⟩]
     ⟨Cell.str "January", PVal.num 5, PVal.num 2, PVal.num 3, PVal.num 60⟩
     (by norm_num [analyzeRows, addMetrics, cleanRow, fillCell, toNumeric, pvSub, pvDiv, pvMul])⟩

/-! ## C8: frame effect of the Cleaner -/

/-- C8 counterexample: `df.fillna(0)` at line 65 applies to the whole
frame, Month included — a missing Month cell is changed to the number
0 by the Cleaner, refuting the claim that cells outside Revenue and
Expenses are unchanged. -/
theorem c8_month_changed_counterexample :
    (cleanRow ⟨Cell.missing, Cell.num 1, Cell.num 1⟩).month = Cell.num 0 ∧
    (cleanRow ⟨Cell.missing, Cell.num 1, Cell.num 1⟩).month ≠ Cell.missing := by
  refine ⟨rfl, by decide⟩

/-- C8 amended: the Cleaner's fill applies to every column: a missing
Month cell becomes the number 0; Month cells that are not missing are
unchanged, and the numeric coercion touches only Revenue and
Expenses. -/
theorem c8_clean_frame (r : RawRow) :
    (cleanRow r).month = fillCell r.month ∧
    (r.month ≠ Cell.missing → (cleanRow r).month = r.month) ∧
    (r.month = Cell.missing → (cleanRow r).month = Cell.num 0) := by
  refine ⟨rfl, fun h => ?_, fun h => ?_⟩
  · cases hm : r.month
    · simp [cleanRow, fillCell, hm]
    · simp [cleanRow, fillCell, hm]
    · exact absurd hm h
  · simp [cleanRow, h, fillCell]

/-- C8 witness: a present month label is left unchanged by cleaning. -/
theorem c8_clean_frame_witness :
    Cell.str "January"
      = (⟨Cell.str "January", Cell.num 1, Cell.num 2⟩ : RawRow).month ∧
    (cleanRow ⟨Cell.str "January", Cell.num 1, Cell.num 2⟩).month = Cell.str "January" :=
  ⟨rfl, (c8_clean_frame ⟨Cell.str "January", Cell.num 1, Cell.num 2⟩).2.1 (by decide)⟩

/-! ## C6: validation -/

/-- C6: the Validator passes the table through unchanged when every
required column is present; otherwise the run ends in a schema error
before any computation, the error lists the missing columns, every
absent required column is in that list, and no exported table is
produced. -/
theorem c6_validator (t : RawTable) :
    (missingColumns t = [] → validate t = Except.ok t) ∧
    (missingColumns t ≠ [] →
      validate t = Except.error (missingColumns t) ∧
      ∀ time, runScript time t = RunOutcome.schemaError (missingColumns t)) ∧
    (∀ c, c ∈ requiredColumns → ¬ c ∈ t.columns → c ∈ missingColumns t) ∧
    (missingColumns t ≠ [] →
      ∀ time agg best above ex, runScript time t ≠ RunOutcome.success agg best above ex) := by
  refine ⟨fun h => ?_, fun h => ⟨?_, fun time => ?_⟩, fun c hc hnc => ?_,
    fun h time agg best above ex => ?_⟩
  · simp [validate, h]
  · simp [validate, h]
  · simp [runScript, validate, h]
  · simp only [missingColumns, List.mem_filter]
    exact ⟨hc, by simpa using hnc⟩
  · simp [runScript, validate, h]

/-- C6 witness: a table whose Expenses column is missing: the run is a
schema error naming Expenses and no output is produced. -/
theorem c6_validator_witness :
    missingColumns ⟨["Month", "Revenue"], []⟩ ≠ [] ∧
    runScript "t" ⟨["Month", "Revenue"], []⟩ = RunOutcome.schemaError ["Expenses"] ∧
    "Expenses" ∈ missingColumns ⟨["Month", "Revenue"], []⟩ :=
  ⟨by decide,
   by
     have e : missingColumns ⟨["Month", "Revenue"], []⟩ = ["Expenses"] := by decide
     have h := ((c6_validator ⟨["Month", "Revenue"], []⟩).2.1 (by decide)).2 "t"
     rw [e] at h
     exact h,
   (c6_validator ⟨["Month", "Revenue"], []⟩).2.2.1 "Expenses" (by decide) (by decide)⟩

/-! ## C10: empty table -/

/-- C10: on a table with the required columns and zero rows, the run
computes and prints the aggregate section (total revenue 0, average
revenue NaN, total profit 0, average profit NaN) and then terminates
abnormally at the `idxmax` lookup of line 97; the above-average query,
the charts and the export never run and no exported table is
produced. -/
theorem c10_empty_table_crash (time : String) (t : RawTable)
    (hcols : missingColumns t = []) (hrows : t.rows = []) :
    runScript time t = RunOutcome.idxmaxError ⟨PVal.num 0, PVal.nan, PVal.num 0, PVal.nan⟩ ∧
    ∀ agg best above ex, runScript time t ≠ RunOutcome.success agg best above ex := by
  have h : runScript time t
      = RunOutcome.idxmaxError ⟨PVal.num 0, PVal.nan, PVal.num 0, PVal.nan⟩ := by
    simp [runScript, validate, hcols, hrows, analyzeRows, highestRevenueMonth, idxmax,
      idxmaxPair, pvSumList, pvMean, definedCount]
  refine ⟨h, fun agg best above ex hc => ?_⟩
  rw [h] at hc
  exact RunOutcome.noConfusion hc

/-- C10 witness: the concrete empty table with all three required
columns. -/
theorem c10_empty_table_crash_witness :
    missingColumns ⟨["Month", "Revenue", "Expenses"], []⟩ = [] ∧
    (⟨["Month", "Revenue", "Expenses"], []⟩ : RawTable).rows = [] ∧
    (runScript "t" ⟨["Month", "Revenue", "Expenses"], []⟩
        = RunOutcome.idxmaxError ⟨PVal.num 0, PVal.nan, PVal.num 0, PVal.nan⟩ ∧
     ∀ agg best above ex,
       runScript "t" ⟨["Month", "Revenue", "Expenses"], []⟩
         ≠ RunOutcome.success agg best above ex) :=
  ⟨by decide, rfl,
   c10_empty_table_crash "t" ⟨["Month", "Revenue", "Expenses"], []⟩ (by decide) rfl⟩

/-! ## C1: month-over-month change column -/

/-- C1 counterexample: the script computes no month-over-month profit
change anywhere — on a complete one-row run the exported table's
columns are Month, Revenue, Expenses, Profit, Profit_Margin_Percentage
and Analysis_Time, and `Profit_MoM_Change` is not among them, refuting
the claim that this column is part of the exported output. -/
theorem c1_export_has_no_mom_column :
    runScript "2026-01-01 00:00:00"
        ⟨["Month", "Revenue", "Expenses"], [⟨Cell.str "January", Cell.num 1, Cell.num 0⟩]⟩
      = RunOutcome.success ⟨PVal.num 1, PVal.num 1, PVal.num 1, PVal.num 1⟩
          (Cell.str "January") []
          ⟨["Month", "Revenue", "Expenses", "Profit", "Profit_Margin_Percentage",
            "Analysis_Time"],
           [⟨Cell.str "January", PVal.num 1, PVal.num 0, PVal.num 1, PVal.num 100⟩],
           "2026-01-01 00:00:00"⟩ ∧
    ¬ "Profit_MoM_Change" ∈
        ["Month", "Revenue", "Expenses", "Profit", "Profit_Margin_Percentage",
         "Analysis_Time"] := by
  refine ⟨?_, by decide⟩
  norm_num [runScript, validate, missingColumns, requiredColumns, analyzeRows, addMetrics,
    cleanRow, fillCell, toNumeric, pvSub, pvDiv, pvMul, pvSumList, pvAdd, pvMean,
    definedCount, highestRevenueMonth, idxmax, idxmaxPair, pvGtB, aboveAverageRevenueMonths,
    PVal.isNan]

/-- C1 amended: no month-over-month profit change column exists; every
successful run exports exactly the input columns plus Profit,
Profit_Margin_Percentage and Analysis_Time, so when the input has no
Profit_MoM_Change column neither does the output. -/
theorem c1_export_columns (time : String) (t : RawTable) (agg : Aggregates) (best : Cell)
    (above : List Cell) (ex : ExportTable)
    (h : runScript time t = RunOutcome.success agg best above ex) :
    ex.columns = t.columns ++ ["Profit", "Profit_Margin_Percentage", "Analysis_Time"] ∧
    (¬ "Profit_MoM_Change" ∈ t.columns → ¬ "Profit_MoM_Change" ∈ ex.columns) := by
  have hc : ex.columns = t.columns ++ ["Profit", "Profit_Margin_Percentage", "Analysis_Time"] := by
    simp only [runScript, validate] at h
    by_cases hm : missingColumns t = []
    · simp only [hm, if_pos] at h
      rcases hb : highestRevenueMonth (analyzeRows t.rows) with _ | b
      · rw [hb] at h
        exact absurd h (by simp)
      · rw [hb] at h
        simp only [RunOutcome.success.injEq] at h
        rw [← h.2.2.2]
    · simp only [hm, if_neg, if_false] at h
      exact absurd h (by simp)
  refine ⟨hc, fun hnot hin => ?_⟩
  rw [hc] at hin
  rcases List.mem_append.mp hin with hl | hr
  · exact hnot hl
  · revert hr
    decide

/-- C1 witness: the one-row January table: a successful run whose
export columns are the input's three plus the three added ones. -/
theorem c1_export_columns_witness :
    runScript "2026-01-01 00:00:00"
        ⟨["Month", "Revenue", "Expenses"], [⟨Cell.str "January", Cell.num 1, Cell.num 0⟩]⟩
      = RunOutcome.success ⟨PVal.num 1, PVal.num 1, PVal.num 1, PVal.num 1⟩
          (Cell.str "January") []
          ⟨["Month", "Revenue", "Expenses", "Profit", "Profit_Margin_Percentage",
            "Analysis_Time"],
           [⟨Cell.str "January", PVal.num 1, PVal.num 0, PVal.num 1, PVal.num 100⟩],
           "2026-01-01 00:00:00"⟩ ∧
    ((⟨["Month", "Revenue", "Expenses", "Profit", "Profit_Margin_Percentage",
        "Analysis_Time"],
       [⟨Cell.str "January", PVal.num 1, PVal.num 0, PVal.num 1, PVal.num 100⟩],
       "2026-01-01 00:00:00"⟩ : ExportTable).columns
        = ["Month", "Revenue", "Expenses"] ++ ["Profit", "Profit_Margin_Percentage",
            "Analysis_Time"] ∧
     (¬ "Profit_MoM_Change" ∈ ["Month", "Revenue", "Expenses"] →
      ¬ "Profit_MoM_Change" ∈
          (⟨["Month", "Revenue", "Expenses", "Profit", "Profit_Margin_Percentage",
             "Analysis_Time"],
            [⟨Cell.str "January", PVal.num 1, PVal.num 0, PVal.num 1, PVal.num 100⟩],
            "2026-01-01 00:00:00"⟩ : ExportTable).columns)) := by
  have hrun : runScript "2026-01-01 00:00:00"
      ⟨["Month", "Revenue", "Expenses"], [⟨Cell.str "January", Cell.num 1, Cell.num 0⟩]⟩
    = RunOutcome.success ⟨PVal.num 1, PVal.num 1, PVal.num 1, PVal.num 1⟩
        (Cell.str "January") []
        ⟨["Month", "Revenue", "Expenses", "Profit", "Profit_Margin_Percentage",
          "Analysis_Time"],
         [⟨Cell.str "January", PVal.num 1, PVal.num 0, PVal.num 1, PVal.num 100⟩],
         "2026-01-01 00:00:00"⟩ := by
    norm_num [runScript, validate, missingColumns, requiredColumns, analyzeRows, addMetrics,
      cleanRow, fillCell, toNumeric, pvSub, pvDiv, pvMul, pvSumList, pvAdd, pvMean,
      definedCount, highestRevenueMonth, idxmax, idxmaxPair, pvGtB,
      aboveAverageRevenueMonths, PVal.isNan]
  exact ⟨hrun, c1_export_columns "2026-01-01 00:00:00"
    ⟨["Month", "Revenue", "Expenses"], [⟨Cell.str "January", Cell.num 1, Cell.num 0⟩]⟩
    ⟨PVal.num 1, PVal.num 1, PVal.num 1, PVal.num 1⟩ (Cell.str "January") []
    ⟨["Month", "Revenue", "Expenses", "Profit", "Profit_Margin_Percentage",
      "Analysis_Time"],
     [⟨Cell.str "January", PVal.num 1, PVal.num 0, PVal.num 1, PVal.num 100⟩],
     "2026-01-01 00:00:00"⟩ hrun⟩

/-! ## C9: mean times count versus total -/

/-- C9 counterexample: on a cleaned table whose first Revenue came from
the unparseable string "abc" (hence NaN) and whose second Revenue is 2,
pandas `mean` skips the NaN (so average revenue is 2) while the row
count is 2: average times count is 4, but total revenue is 2 — the
claimed identity fails for this non-empty cleaned table. -/
theorem c9_mean_count_counterexample :
    pvMul
        (pvMean ((analyzeRows [⟨Cell.str "January", Cell.str "abc", Cell.num 0⟩,
            ⟨Cell.str "February", Cell.num 2, Cell.num 0⟩]).map (fun r => r.revenue)))
        (PVal.num ((analyzeRows [⟨Cell.str "January", Cell.str "abc", Cell.num 0⟩,
            ⟨Cell.str "February", Cell.num 2, Cell.num 0⟩]).length : ℚ))
      ≠ pvSumList ((analyzeRows [⟨Cell.str "January", Cell.str "abc", Cell.num 0⟩,
            ⟨Cell.str "February", Cell.num 2, Cell.num 0⟩]).map (fun r => r.revenue)) := by
  norm_num [analyzeRows, addMetrics, cleanRow, fillCell, toNumeric, pvSub, pvDiv, pvMul,
    pvSumList, pvAdd, pvMean, definedCount, PVal.isNan]

/-! ## Helper lemmas about the aggregate and extremum operations -/

/-- The sum of an all-numeric column is the rational sum. -/
lemma pvSumList_map_num (l : List ℚ) : pvSumList (l.map PVal.num) = PVal.num l.sum := by
  induction l with
  | nil => rfl
  | cons x xs ih => simp [pvSumList, PVal.isNan, pvAdd, ih]

/-- Every entry of an all-numeric column is defined. -/
lemma definedCount_map_num (l : List ℚ) : definedCount (l.map PVal.num) = l.length := by
  induction l with
  | nil => rfl
  | cons x xs ih =>
    simp only [definedCount, List.map_cons, List.filter_cons, PVal.isNan] at ih ⊢
    simp [ih]

/-- The mean of a non-empty all-numeric column is sum over length. -/
lemma pvMean_map_num (l : List ℚ) (h : l ≠ []) :
    pvMean (l.map PVal.num) = PVal.num (l.sum / l.length) := by
  have hl : l.length ≠ 0 := by simpa [List.length_eq_zero] using h
  have hq : ((l.length : ℚ)) ≠ 0 := Nat.cast_ne_zero.mpr hl
  rw [pvMean, definedCount_map_num, if_neg hl, pvSumList_map_num]
  simp [pvDiv, hq]

/-- `idxmax` cannot raise on a non-empty all-numeric column. -/
lemma idxmaxPair_map_num_ne_none (l : List ℚ) (h : l ≠ []) :
    idxmaxPair (l.map PVal.num) ≠ none := by
  cases l with
  | nil => exact absurd rfl h
  | cons x xs =>
    simp only [List.map_cons, idxmaxPair, PVal.isNan]
    cases hrec : idxmaxPair (xs.map PVal.num) with
    | none => simp
    | some p =>
      obtain ⟨j, w⟩ := p
      simp only [Bool.false_eq_true, if_false]
      split <;> simp

/-- On an all-numeric column, `idxmax` returns a position holding the
maximum value such that every strictly earlier position holds a
strictly smaller value — the first occurrence of the maximum. -/
lemma idxmaxPair_map_num_spec (l : List ℚ) :
    ∀ j w, idxmaxPair (l.map PVal.num) = some (j, w) →
      ∃ hj : j < l.length,
        w = PVal.num (l.get ⟨j, hj⟩) ∧
        (∀ k, ∀ hk : k < l.length, l.get ⟨k, hk⟩ ≤ l.get ⟨j, hj⟩) ∧
        (∀ k, ∀ hk : k < j, l.get ⟨k, Nat.lt_trans hk hj⟩ < l.get ⟨j, hj⟩) := by
  induction l with
  | nil => intro j w h; simp [idxmaxPair] at h
  | cons x xs ih =>
    intro j w h
    cases hrec : idxmaxPair (xs.map PVal.num) with
    | none =>
      simp only [List.map_cons, idxmaxPair, PVal.isNan, hrec, Bool.false_eq_true,
        if_false, Option.some.injEq, Prod.mk.injEq] at h
      obtain ⟨rfl, rfl⟩ := h
      have hxs : xs = [] := by
        by_contra hne
        exact idxmaxPair_map_num_ne_none xs hne hrec
      subst hxs
      refine ⟨Nat.zero_lt_one, rfl, ?_, ?_⟩
      · intro k hk
        cases k with
        | zero => exact le_refl _
        | succ k' =>
          simp only [List.length_singleton] at hk
          exact absurd hk (by omega)
      · intro k hk
        exact absurd hk (Nat.not_lt_zero k)
    | some p =>
      obtain ⟨j', w'⟩ := p
      obtain ⟨hj', hw', hmax', hfirst'⟩ := ih j' w' hrec
      subst hw'
      simp only [List.map_cons, idxmaxPair, PVal.isNan, hrec, Bool.false_eq_true,
        if_false] at h
      rcases lt_or_le x (xs.get ⟨j', hj'⟩) with hcmp | hcmp
      · have ht : pvGtB (PVal.num (xs.get ⟨j', hj'⟩)) (PVal.num x) = true :=
          decide_eq_true hcmp
        rw [if_pos ht] at h
        simp only [Option.some.injEq, Prod.mk.injEq] at h
        obtain ⟨rfl, rfl⟩ := h
        refine ⟨Nat.succ_lt_succ hj', ?_, ?_, ?_⟩
        · simp only [List.get_eq_getElem, List.getElem_cons_succ]
        · intro k hk
          cases k with
          | zero =>
            simp only [List.get_eq_getElem, List.getElem_cons_zero, List.getElem_cons_succ]
            exact le_of_lt hcmp
          | succ k' =>
            simp only [List.get_eq_getElem, List.getElem_cons_succ]
            exact hmax' k' (Nat.lt_of_succ_lt_succ hk)
        · intro k hk
          cases k with
          | zero =>
            simp only [List.get_eq_getElem, List.getElem_cons_zero, List.getElem_cons_succ]
            exact hcmp
          | succ k' =>
            simp only [List.get_eq_getElem, List.getElem_cons_succ]
            exact hfirst' k' (Nat.lt_of_succ_lt_succ hk)
      · have ht : ¬ pvGtB (PVal.num (xs.get ⟨j', hj'⟩)) (PVal.num x) = true :=
          fun hh => not_lt.mpr hcmp (of_decide_eq_true hh)
        rw [if_neg ht] at h
        simp only [Option.some.injEq, Prod.mk.injEq] at h
        obtain ⟨rfl, rfl⟩ := h
        refine ⟨Nat.succ_pos _, rfl, ?_, ?_⟩
        · intro k hk
          cases k with
          | zero => exact le_refl _
          | succ k' =>
            simp only [List.get_eq_getElem, List.getElem_cons_zero, List.getElem_cons_succ]
            exact le_trans (hmax' k' (Nat.lt_of_succ_lt_succ hk)) hcmp
        · intro k hk
          exact absurd hk (Nat.not_lt_zero k)

/-! ## C7: extremum queries -/

/-- C7: on an analyzed table whose Revenue values are all numeric
(`f` gives each row's numeric revenue), the best-month lookup returns
the Month of the first row attaining the maximum revenue — every row's
revenue is at most that row's, and every strictly earlier row's
revenue is strictly smaller — and the above-average query returns
exactly the Months of the rows whose revenue strictly exceeds the mean
revenue, in the table's row order. -/
theorem c7_extremum_queries (m : List MetricRow) (f : MetricRow → ℚ)
    (hf : ∀ r ∈ m, r.revenue = PVal.num (f r)) :
    (∀ c, highestRevenueMonth m = some c →
      ∃ i, ∃ hi : i < m.length,
        c = (m.get ⟨i, hi⟩).month ∧
        (∀ k, ∀ hk : k < m.length, f (m.get ⟨k, hk⟩) ≤ f (m.get ⟨i, hi⟩)) ∧
        (∀ k, ∀ hk : k < i, f (m.get ⟨k, Nat.lt_trans hk hi⟩) < f (m.get ⟨i, hi⟩))) ∧
    aboveAverageRevenueMonths m =
      (m.filter (fun r => decide ((m.map f).sum / (m.length : ℚ) < f r))).map
        (fun r => r.month) := by
  have hm : m.map (fun r => r.revenue) = (m.map f).map PVal.num := by
    rw [List.map_map]
    exact List.map_congr_left hf
  constructor
  · intro c hc
    rcases hpair : idxmaxPair (m.map (fun r => r.revenue)) with _ | p
    · rw [highestRevenueMonth, idxmax, hpair] at hc
      simp at hc
    · obtain ⟨i, w⟩ := p
      rw [highestRevenueMonth, idxmax, hpair] at hc
      rw [hm] at hpair
      obtain ⟨hj, hw, hmax, hfirst⟩ := idxmaxPair_map_num_spec (m.map f) i w hpair
      have hi : i < m.length := by simpa using hj
      rw [Option.map_some', Option.some_bind, List.get?_eq_get hi,
        Option.map_some', Option.some.injEq] at hc
      refine ⟨i, hi, hc.symm, ?_, ?_⟩
      · intro k hk
        have h2 := hmax k (by simpa using hk)
        simp only [List.get_eq_getElem, List.getElem_map] at h2
        exact h2
      · intro k hk
        have h2 := hfirst k hk
        simp only [List.get_eq_getElem, List.getElem_map] at h2
        exact h2
  · rcases eq_or_ne m [] with rfl | hne
    · rfl
    · have hfne : m.map f ≠ [] := by simpa [List.map_eq_nil_iff] using hne
      rw [aboveAverageRevenueMonths, hm, pvMean_map_num (m.map f) hfne]
      have hlen : (m.map f).length = m.length := List.length_map _ _
      rw [hlen]
      congr 1
      apply List.filter_congr
      intro r hr
      rw [hf r hr]
      rfl


/-- C7 witness: the three-row table with tied revenues 1, 5, 5: the
hypothesis holds and the theorem's characterization of both queries
follows at that table. -/
theorem c7_extremum_queries_witness :
    (∀ r ∈ tiedRevenueRows, r.revenue = PVal.num (revenueValue r)) ∧
    ((∀ c, highestRevenueMonth tiedRevenueRows = some c →
      ∃ i, ∃ hi : i < tiedRevenueRows.length,
        c = (tiedRevenueRows.get ⟨i, hi⟩).month ∧
        (∀ k, ∀ hk : k < tiedRevenueRows.length,
          revenueValue (tiedRevenueRows.get ⟨k, hk⟩)
            ≤ revenueValue (tiedRevenueRows.get ⟨i, hi⟩)) ∧
        (∀ k, ∀ hk : k < i,
          revenueValue (tiedRevenueRows.get ⟨k, Nat.lt_trans hk hi⟩)
            < revenueValue (tiedRevenueRows.get ⟨i, hi⟩))) ∧
     aboveAverageRevenueMonths tiedRevenueRows =
       (tiedRevenueRows.filter (fun r => decide
           ((tiedRevenueRows.map revenueValue).sum / (tiedRevenueRows.length : ℚ)
             < revenueValue r))).map (fun r => r.month)) :=
  ⟨by decide, c7_extremum_queries tiedRevenueRows revenueValue (by decide)⟩
/-- C9 amended: on a non-empty analyzed table all of whose Revenue
values are numeric, the average revenue times the row count equals the
total revenue, exactly.  (The unamended claim fails when some cleaned
revenue is NaN, because `mean` skips NaN while the row count does
not.) -/
theorem c9_mean_mul_count_eq_total (m : List MetricRow) (f : MetricRow → ℚ)
    (hf : ∀ r ∈ m, r.revenue = PVal.num (f r)) (hne : m ≠ []) :
    pvMul (pvMean (m.map (fun r => r.revenue))) (PVal.num (m.length : ℚ))
      = pvSumList (m.map (fun r => r.revenue)) := by
  have hm : m.map (fun r => r.revenue) = (m.map f).map PVal.num := by
    rw [List.map_map]
    exact List.map_congr_left hf
  have hfne : m.map f ≠ [] := by simpa [List.map_eq_nil_iff] using hne
  rw [hm, pvMean_map_num (m.map f) hfne, pvSumList_map_num]
  have hlen : (m.map f).length = m.length := List.length_map _ _
  rw [hlen]
  have hl0 : m.length ≠ 0 := by simpa [List.length_eq_zero] using hne
  have hq : ((m.length : ℚ)) ≠ 0 := Nat.cast_ne_zero.mpr hl0
  show PVal.num ((m.map f).sum / (m.length : ℚ) * (m.length : ℚ)) = PVal.num (m.map f).sum
  rw [div_mul_cancel₀ _ hq]

/-- C9 witness: the two-row all-numeric table with revenues 1 and 3:
mean 2 times count 2 equals total 4. -/
theorem c9_mean_mul_count_witness :
    (∀ r ∈ twoNumericRows, r.revenue = PVal.num (revenueValue r)) ∧
    twoNumericRows ≠ [] ∧
    pvMul (pvMean (twoNumericRows.map (fun r => r.revenue)))
        (PVal.num (twoNumericRows.length : ℚ))
      = pvSumList (twoNumericRows.map (fun r => r.revenue)) :=
  ⟨by decide, by decide,
   c9_mean_mul_count_eq_total twoNumericRows revenueValue (by decide) (by decide)⟩
